import Mathlib

/-!
Shallow embedding of the account authentication engine of
`apps/platform/trpc/routers/authRouter/passwordRouter.ts` (UnInbox):
the three operations `signUpWithPassword`, `signInWithPassword` and
`updateUserPassword`, modelled over an explicit account store and an
explicit session store, with the external primitives (Argon2id hashing,
TOTP verification, id generation, clock) supplied as an environment of
pure functions.  Failure (`throw` in the source) is modelled with
`Except`; observable repository/session side effects are additionally
recorded in an event trace.
-/

/-- Account record, the columns selected by the router
(`id, publicId, username, passwordHash, twoFactorSecret, recoveryCode`
plus `lastLoginAt` which the router updates).  `Option` models nullable
columns. -/
structure Account where
  id : Nat
  publicId : String
  username : String
  passwordHash : Option String
  twoFactorSecret : Option String
  recoveryCode : Option String
  lastLoginAt : Option Nat
  deriving DecidableEq, Repr

/-- Error kinds thrown by the router, one per distinct `throw` site
(names follow the spec's error taxonomy; the source throws
`TRPCError`/`createError` with the corresponding code and message). -/
inductive AuthError where
  /-- BAD_REQUEST: fewer than two factors supplied (sign-in). -/
  | insufficientFactors
  /-- NOT_FOUND: no account for the given username / id. -/
  | accountNotFound
  /-- METHOD_NOT_SUPPORTED: password supplied but `passwordHash` is null. -/
  | passwordSignInDisabled
  /-- METHOD_NOT_SUPPORTED: otp supplied but `twoFactorSecret` is null. -/
  | otpSignInDisabled
  /-- METHOD_NOT_SUPPORTED: recovery code supplied but `recoveryCode` is null. -/
  | recoverySignInDisabled
  /-- 400: password did not verify. -/
  | invalidCredentials
  /-- UNAUTHORIZED: otp code did not verify. -/
  | invalidOtp
  /-- UNAUTHORIZED: recovery code did not verify. -/
  | invalidRecoveryCode
  /-- METHOD_NOT_SUPPORTED: rotation requires 2FA but `twoFactorSecret` is null. -/
  | twoFactorNotEnabled
  /-- UNAUTHORIZED: generic final rejection of sign-in. -/
  | authenticationFailed
  /-- FORBIDDEN: sign-up username not available (validator message). -/
  | usernameUnavailable (msg : String)
  /-- A thrown library / store failure (hash primitive or insert). -/
  | internal
  deriving DecidableEq, Repr

/-- Observable side effects on the collaborators, in program order. -/
inductive Event where
  /-- `db.query.accounts.findFirst` by username. -/
  | lookup (username : String)
  /-- `db.update(accounts).set({recoveryCode: null})` for the account id. -/
  | clearRecoveryCode (id : Nat)
  /-- `createLuciaSessionCookie` + `setCookie`. -/
  | issueSession (accountId : Nat) (username : String) (publicId : String)
  /-- `db.update(accounts).set({lastLoginAt: new Date()})`. -/
  | updateLastLoginAt (id : Nat)
  /-- `lucia.invalidateUserSessions(accountId)`. -/
  | invalidateSessions (accountId : Nat)
  /-- `console.error(err)` in the sign-up catch block. -/
  | logError
  deriving DecidableEq, Repr

/-- Environment of external primitives the router calls: Argon2id
verify/hash (`oslo/password`), TOTP verification composed with hex
decoding of the stored secret (`oslo/otp`, `oslo/encoding`), the
`typeIdGenerator` for public ids, the clock (`new Date()`), the
database-assigned insert id, the session token minted by lucia, and a
failure-injection flag for the insert (a store failure surfaces as a
thrown error). -/
structure AuthEnv where
  argonVerify : String → String → Bool
  argonHash : String → Except Unit String
  totpVerify : String → String → Bool
  typeIdGenerator : String
  now : Nat
  nextId : Nat
  newSessionToken : Nat
  insertFails : Bool

deriving instance DecidableEq for Except

/-- JavaScript truthiness of an optional string input field:
`undefined` and the empty string are falsy. -/
def truthy : Option String → Bool
  | none => false
  | some s => !(s == "")

/-- Input of `signInWithPassword`.  At the engine contract boundary all
three factors are optional (`signIn(username, password?, otpCode?,
recoveryCode?)`); the router tests each with JS truthiness. -/
structure SignInInput where
  username : String
  password : Option String
  twoFactorCode : Option String
  recoveryCode : Option String
  deriving DecidableEq, Repr

/-- The guard of lines 88-98: sign-in is rejected when no two of the
three factors are simultaneously truthy. -/
def insufficient (input : SignInInput) : Bool :=
  !(truthy input.password && truthy input.twoFactorCode) &&
  !(truthy input.password && truthy input.recoveryCode) &&
  !(truthy input.twoFactorCode && truthy input.recoveryCode)

/-- Number of non-absent (supplied) factors in a sign-in request. -/
def presentFactorCount (input : SignInInput) : Nat :=
  (if input.password.isSome then 1 else 0) +
  (if input.twoFactorCode.isSome then 1 else 0) +
  (if input.recoveryCode.isSome then 1 else 0)

/-- `db.query.accounts.findFirst({where: eq(accounts.username, u)})`:
first account in the store with the given username. -/
def findByUsername (db : List Account) (username : String) : Option Account :=
  db.find? (fun a => a.username == username)

/-- `db.query.accounts.findFirst({where: eq(accounts.id, i)})`. -/
def findById (db : List Account) (i : Nat) : Option Account :=
  db.find? (fun a => a.id == i)

/-- `db.update(accounts).set(...).where(eq(accounts.id, i))`: apply `g`
to every row whose id matches. -/
def updateById (db : List Account) (i : Nat) (g : Account → Account) :
    List Account :=
  db.map (fun a => if a.id == i then g a else a)

/-- Lines 180-185: unconditional update setting `recoveryCode` to null
for the account id (the `where` clause matches on id only). -/
def clearRecoveryCode (db : List Account) (i : Nat) : List Account :=
  updateById db i (fun a => { a with recoveryCode := none })

/-- Lines 211-214 (and 67-70): set `lastLoginAt` to the current time. -/
def setLastLogin (db : List Account) (i : Nat) (t : Nat) : List Account :=
  updateById db i (fun a => { a with lastLoginAt := some t })

/-- Lines 292-297: replace the stored password hash. -/
def setPasswordHash (db : List Account) (i : Nat) (h : String) :
    List Account :=
  updateById db i (fun a => { a with passwordHash := some h })

/-- Lines 119-139: password factor.  Skipped (outcome `false`) when the
input is falsy; `PasswordSignInDisabled` when no hash is stored;
otherwise Argon2id verification, throwing `InvalidCredentials` on
mismatch. -/
def checkPassword (env : AuthEnv) (pw : Option String) (user : Account) :
    Except AuthError Bool :=
  if truthy pw then
    match user.passwordHash with
    | none => .error .passwordSignInDisabled
    | some ph =>
      if env.argonVerify ph (pw.getD "") then .ok true
      else .error .invalidCredentials
  else .ok false

/-- Lines 141-161: OTP factor.  Skipped when falsy; `OtpSignInDisabled`
when no secret is enrolled; otherwise TOTP verification of the code
against the hex-decoded secret, throwing `InvalidOtp` on mismatch. -/
def checkOtp (env : AuthEnv) (code : Option String) (user : Account) :
    Except AuthError Bool :=
  if truthy code then
    match user.twoFactorSecret with
    | none => .error .otpSignInDisabled
    | some secretHex =>
      if env.totpVerify (code.getD "") secretHex then .ok true
      else .error .invalidOtp
  else .ok false

/-- Lines 163-195: recovery-code factor.  Skipped when falsy;
`RecoverySignInDisabled` when no code is stored; otherwise Argon2id
verification against the stored hash read from the snapshot `user`,
and on success the stored code is cleared in the current store by an
id-only update (the source update is not conditioned on the stored
value); `InvalidRecoveryCode` on mismatch. -/
def checkRecovery (env : AuthEnv) (rc : Option String) (user : Account)
    (db : List Account) :
    Except AuthError Bool × List Account × List Event :=
  if truthy rc then
    match user.recoveryCode with
    | none => (.error .recoverySignInDisabled, db, [])
    | some stored =>
      if env.argonVerify stored (rc.getD "") then
        (.ok true, clearRecoveryCode db user.id, [.clearRecoveryCode user.id])
      else (.error .invalidRecoveryCode, db, [])
  else (.ok false, db, [])

/-- Lines 119-221: the body of sign-in after the account snapshot
`user` has been fetched.  Verifies the three factors in source order
against the snapshot (each failing supplied factor throws), then the
2-of-3 decision of lines 197-201; on success a session is issued and
`lastLoginAt` updated, otherwise the generic UNAUTHORIZED rejection of
lines 218-221.  Returns the result, the updated store and the emitted
events. -/
def signInAfterLookup (env : AuthEnv) (input : SignInInput) (user : Account)
    (db : List Account) :
    Except AuthError Unit × List Account × List Event :=
  match checkPassword env input.password user with
  | .error e => (.error e, db, [])
  | .ok validPassword =>
    match checkOtp env input.twoFactorCode user with
    | .error e => (.error e, db, [])
    | .ok otpValid =>
      let r3 := checkRecovery env input.recoveryCode user db
      match r3.1 with
      | .error e => (.error e, r3.2.1, r3.2.2)
      | .ok recoveryCodeValid =>
        if (validPassword && otpValid) || (validPassword && recoveryCodeValid)
            || (otpValid && recoveryCodeValid) then
          (.ok (), setLastLogin r3.2.1 user.id env.now,
            r3.2.2 ++ [.issueSession user.id user.username user.publicId,
              .updateLastLoginAt user.id])
        else (.error .authenticationFailed, r3.2.1, r3.2.2)

/-- `signInWithPassword` (lines 75-222): the 2-of-3 factor guard before
any lookup, then the account lookup by username, then the factor
verification and decision of `signInAfterLookup`. -/
def signInWithPassword (env : AuthEnv) (input : SignInInput)
    (db : List Account) :
    Except AuthError Unit × List Account × List Event :=
  if insufficient input then (.error .insufficientFactors, db, [])
  else
    match findByUsername db input.username with
    | none => (.error .accountNotFound, db, [.lookup input.username])
    | some user =>
      let r := signInAfterLookup env input user db
      (r.1, r.2.1, Event.lookup input.username :: r.2.2)

/-- Modelled from the spec: `validateUsername` lives in
`signupRouter.ts`, which is not part of the provided sources.  The spec
specifies it as UsernameValidator: `checkAvailable(username) ->
{available: bool, reason?: string}` checking availability against the
account store (uniqueness); unavailable carries a reason string. -/
def validateUsername (db : List Account) (username : String) :
    Bool × Option String :=
  if db.any (fun a => a.username == username) then
    (false, some "Username is not available")
  else (true, none)

/-- Input of `signUpWithPassword`. -/
structure SignUpInput where
  username : String
  password : String
  deriving DecidableEq, Repr

/-- Lines 33-57: the body of the sign-up transaction.  Re-checks
username availability (FORBIDDEN with the validator's message when
unavailable), hashes the password (the Argon2id call may throw),
generates a fresh public id, and inserts the row (the insert may throw
a store failure).  Returns the tentative store with the new row, the
database-assigned account id and the public id. -/
def signUpTxBody (env : AuthEnv) (input : SignUpInput) (db : List Account) :
    Except AuthError (List Account × Nat × String) :=
  let v := validateUsername db input.username
  if !v.1 then
    .error (.usernameUnavailable (v.2.getD "Username is not available"))
  else
    match env.argonHash input.password with
    | .error _ => .error .internal
    | .ok passwordHash =>
      let publicId := env.typeIdGenerator
      if env.insertFails then .error .internal
      else
        let accountId := env.nextId
        let row : Account :=
          { id := accountId, publicId := publicId,
            username := input.username, passwordHash := some passwordHash,
            twoFactorSecret := none, recoveryCode := none,
            lastLoginAt := none }
        .ok (db ++ [row], accountId, publicId)

/-- `signUpWithPassword` (lines 21-73).  The transaction body runs
against the store; on any failure inside it, the transaction is rolled
back (modelled from the spec: `db.transaction` / `tx.rollback` are
store primitives outside the provided sources, and the spec states the
transaction rolls back entirely, leaving the store unchanged), the
error is logged (`console.error`) and re-raised.  After a successful
commit, a session is issued and `lastLoginAt` updated. -/
def signUpWithPassword (env : AuthEnv) (input : SignUpInput)
    (db : List Account) :
    Except AuthError Unit × List Account × List Event :=
  match signUpTxBody env input db with
  | .error e => (.error e, db, [.logError])
  | .ok (db2, accountId, publicId) =>
    (.ok (), setLastLogin db2 accountId env.now,
      [.issueSession accountId input.username publicId,
        .updateLastLoginAt accountId])

/-- Input of `updateUserPassword` (rotation). -/
structure RotateInput where
  oldPassword : String
  newPassword : String
  otp : String
  invalidateAllSessions : Bool
  deriving DecidableEq, Repr

/-- A session record: (token minted by lucia, account id it belongs
to).  `createLuciaSessionCookie` prepends a fresh session;
`lucia.invalidateUserSessions` removes every session of the account. -/
abbrev Session := Nat × Nat

/-- `updateUserPassword` (lines 224-312): fetch the account by the
trusted id; fail `accountNotFound` / `passwordSignInDisabled` /
`invalidCredentials` / `twoFactorNotEnabled` / `invalidOtp` in source
order; then hash the new password and store it, invalidate all the
account's sessions when requested, and issue a fresh session.  Returns
the result, the updated account store, the updated session store and
the emitted events. -/
def updateUserPassword (env : AuthEnv) (accountId : Nat)
    (input : RotateInput) (db : List Account) (sessions : List Session) :
    Except AuthError Unit × List Account × List Session × List Event :=
  match findById db accountId with
  | none => (.error .accountNotFound, db, sessions, [])
  | some accountData =>
    match accountData.passwordHash with
    | none => (.error .passwordSignInDisabled, db, sessions, [])
    | some ph =>
      if env.argonVerify ph input.oldPassword then
        match accountData.twoFactorSecret with
        | none => (.error .twoFactorNotEnabled, db, sessions, [])
        | some secretHex =>
          if env.totpVerify input.otp secretHex then
            match env.argonHash input.newPassword with
            | .error _ => (.error .internal, db, sessions, [])
            | .ok newHash =>
              let db2 := setPasswordHash db accountId newHash
              let sessions2 :=
                if input.invalidateAllSessions then
                  sessions.filter (fun s => s.2 != accountId)
                else sessions
              let evs1 :=
                if input.invalidateAllSessions then
                  [Event.invalidateSessions accountId]
                else []
              (.ok (), db2, (env.newSessionToken, accountId) :: sessions2,
                evs1 ++ [.issueSession accountId accountData.username
                  accountData.publicId])
          else (.error .invalidOtp, db, sessions, [])
      else (.error .invalidCredentials, db, sessions, [])

/-! Concrete fixtures for witnesses and counterexamples. -/

/-- Test environment for concrete runs: hashing prepends a marker,
TOTP verification is equality with the stored secret. -/
def testEnv : AuthEnv where
  argonVerify := fun h s => h == "#" ++ s
  argonHash := fun s => .ok ("#" ++ s)
  totpVerify := fun c s => c == s
  typeIdGenerator := "pub_new"
  now := 100
  nextId := 2
  newSessionToken := 77
  insertFails := false

/-- Alice with all three credentials enrolled. -/
def alice : Account where
  id := 1
  publicId := "pub_alice"
  username := "alice"
  passwordHash := some "#pw123456"
  twoFactorSecret := some "OTPSECRET"
  recoveryCode := some "#rec-code"
  lastLoginAt := none

/-- Alice after a successful recovery-code sign-in at time 100. -/
def aliceCleared : Account :=
  { alice with recoveryCode := none, lastLoginAt := some 100 }

/-- Bob has password sign-in disabled (no stored hash) but OTP and a
recovery code enrolled. -/
def bob : Account where
  id := 3
  publicId := "pub_bob"
  username := "bob"
  passwordHash := none
  twoFactorSecret := some "BSECRET"
  recoveryCode := some "#brec-code"
  lastLoginAt := none

/-- Dave has a password but no 2FA secret. -/
def dave : Account where
  id := 4
  publicId := "pub_dave"
  username := "dave"
  passwordHash := some "#dpw12345"
  twoFactorSecret := none
  recoveryCode := none
  lastLoginAt := none

/-- Correct password together with the correct recovery code. -/
def inpPR : SignInInput where
  username := "alice"
  password := some "pw123456"
  twoFactorCode := none
  recoveryCode := some "rec-code"

/-- All three factors supplied; password and OTP correct, recovery
code wrong. -/
def inpAllThreeBadRecovery : SignInInput where
  username := "alice"
  password := some "pw123456"
  twoFactorCode := some "OTPSECRET"
  recoveryCode := some "WRONG"

/-- Only the password supplied. -/
def inpOnlyPassword : SignInInput where
  username := "alice"
  password := some "pw123456"
  twoFactorCode := none
  recoveryCode := none

/-- Password + OTP for bob, whose password sign-in is disabled. -/
def inpBob : SignInInput where
  username := "bob"
  password := some "whatever12"
  twoFactorCode := some "BSECRET"
  recoveryCode := none

/-- Password + OTP for a username with no account. -/
def inpNobody : SignInInput where
  username := "nobody"
  password := some "pw123456"
  twoFactorCode := some "OTPSECRET"
  recoveryCode := none

/-- Rotation attempt by dave (correct old password, no 2FA enrolled). -/
def rotDave : RotateInput where
  oldPassword := "dpw12345"
  newPassword := "NewPass123"
  otp := "123456"
  invalidateAllSessions := false

/-- Rotation attempt by alice with a wrong OTP code. -/
def rotAliceBadOtp : RotateInput where
  oldPassword := "pw123456"
  newPassword := "NewPass123"
  otp := "WRONGOTP"
  invalidateAllSessions := false

/-- Rotation by alice: everything correct, invalidating all sessions. -/
def rotAliceGood : RotateInput where
  oldPassword := "pw123456"
  newPassword := "NewPass123"
  otp := "OTPSECRET"
  invalidateAllSessions := true

/-- The test environment with a failing store insert. -/
def testEnvInsertFail : AuthEnv := { testEnv with insertFails := true }

/-! Helper lemmas about the factor checks. -/

theorem checkPassword_ok (env : AuthEnv) (pw : Option String) (u : Account)
    (b : Bool) (h : checkPassword env pw u = .ok b) : b = truthy pw := by
  unfold checkPassword at h
  split at h
  · split at h
    · exact absurd h (by simp)
    · split at h
      · simp_all
      · exact absurd h (by simp)
  · simp only [Except.ok.injEq] at h
    simp_all

theorem checkPassword_error (env : AuthEnv) (pw : Option String)
    (u : Account) (e : AuthError)
    (h : checkPassword env pw u = .error e) :
    e = .passwordSignInDisabled ∨ e = .invalidCredentials := by
  unfold checkPassword at h
  split at h
  · split at h
    · simp only [Except.error.injEq] at h
      exact Or.inl h.symm
    · split at h
      · exact absurd h (by simp)
      · simp only [Except.error.injEq] at h
        exact Or.inr h.symm
  · exact absurd h (by simp)

theorem checkOtp_ok (env : AuthEnv) (code : Option String) (u : Account)
    (b : Bool) (h : checkOtp env code u = .ok b) : b = truthy code := by
  unfold checkOtp at h
  split at h
  · split at h
    · exact absurd h (by simp)
    · split at h
      · simp_all
      · exact absurd h (by simp)
  · simp only [Except.ok.injEq] at h
    simp_all

theorem checkOtp_error (env : AuthEnv) (code : Option String)
    (u : Account) (e : AuthError) (h : checkOtp env code u = .error e) :
    e = .otpSignInDisabled ∨ e = .invalidOtp := by
  unfold checkOtp at h
  split at h
  · split at h
    · simp only [Except.error.injEq] at h
      exact Or.inl h.symm
    · split at h
      · exact absurd h (by simp)
      · simp only [Except.error.injEq] at h
        exact Or.inr h.symm
  · exact absurd h (by simp)

theorem checkRecovery_ok (env : AuthEnv) (rc : Option String) (u : Account)
    (db : List Account) (b : Bool)
    (h : (checkRecovery env rc u db).1 = .ok b) : b = truthy rc := by
  unfold checkRecovery at h
  split at h
  · split at h
    · exact absurd h (by simp)
    · split at h
      · simp_all
      · exact absurd h (by simp)
  · simp only [Except.ok.injEq] at h
    simp_all

theorem checkRecovery_error (env : AuthEnv) (rc : Option String)
    (u : Account) (db : List Account) (e : AuthError)
    (h : (checkRecovery env rc u db).1 = .error e) :
    (e = .recoverySignInDisabled ∨ e = .invalidRecoveryCode) ∧
      (checkRecovery env rc u db).2.1 = db := by
  unfold checkRecovery at h ⊢
  split at h
  · split at h
    · simp only [Except.error.injEq] at h
      simp_all

    · split at h
      · exact absurd h (by simp)
      · simp only [Except.error.injEq] at h
        simp_all
  · exact absurd h (by simp)

theorem checkRecovery_fst_indep (env : AuthEnv) (rc : Option String)
    (u : Account) (db db2 : List Account) :
    (checkRecovery env rc u db).1 = (checkRecovery env rc u db2).1 := by
  unfold checkRecovery
  split
  · split
    · rfl
    · split
      · rfl
      · rfl
  · rfl

theorem twoOfThree (a b c : Bool)
    (h : (!(a && b) && !(a && c) && !(b && c)) = false) :
    ((a && b) || (a && c) || (b && c)) = true := by
  cases a <;> cases b <;> cases c <;> simp_all

/-- When the 2-of-3 guard has passed, a failing run of the post-lookup
body never ends in the generic `authenticationFailed` rejection (every
supplied factor either passes or throws its own error first), and it
leaves the account store untouched. -/
theorem signInAfterLookup_error_facts (env : AuthEnv) (input : SignInInput)
    (user : Account) (db : List Account)
    (hins : insufficient input = false) (e : AuthError)
    (h : (signInAfterLookup env input user db).1 = .error e) :
    e ≠ .authenticationFailed ∧
      (signInAfterLookup env input user db).2.1 = db := by
  cases hcp : checkPassword env input.password user with
  | error e1 =>
    have hres : signInAfterLookup env input user db = (.error e1, db, []) := by
      simp [signInAfterLookup, hcp]
    rw [hres] at h
    simp only [Except.error.injEq] at h
    subst h
    exact ⟨by rcases checkPassword_error _ _ _ _ hcp with h1 | h1 <;> simp [h1],
      by rw [hres]⟩
  | ok b1 =>
    cases hco : checkOtp env input.twoFactorCode user with
    | error e2 =>
      have hres : signInAfterLookup env input user db = (.error e2, db, []) := by
        simp [signInAfterLookup, hcp, hco]
      rw [hres] at h
      simp only [Except.error.injEq] at h
      subst h
      exact ⟨by rcases checkOtp_error _ _ _ _ hco with h1 | h1 <;> simp [h1],
        by rw [hres]⟩
    | ok b2 =>
      cases hr3 : (checkRecovery env input.recoveryCode user db).1 with
      | error e3 =>
        have hres1 : (signInAfterLookup env input user db).1 = .error e3 := by
          simp [signInAfterLookup, hcp, hco, hr3]
        have hres2 : (signInAfterLookup env input user db).2.1 =
            (checkRecovery env input.recoveryCode user db).2.1 := by
          simp [signInAfterLookup, hcp, hco, hr3]
        rw [hres1] at h
        simp only [Except.error.injEq] at h
        subst h
        exact ⟨by rcases (checkRecovery_error _ _ _ _ _ hr3).1 with h1 | h1 <;>
            simp [h1],
          by rw [hres2, (checkRecovery_error _ _ _ _ _ hr3).2]⟩
      | ok b3 =>
        have hb1 := checkPassword_ok _ _ _ _ hcp
        have hb2 := checkOtp_ok _ _ _ _ hco
        have hb3 := checkRecovery_ok _ _ _ _ _ hr3
        have hdec : ((b1 && b2) || (b1 && b3) || (b2 && b3)) = true := by
          subst hb1 hb2 hb3
          exact twoOfThree _ _ _ (by simpa [insufficient] using hins)
        simp_all [signInAfterLookup]

/-- A failing sign-in is never the generic `authenticationFailed`
rejection, and it leaves the account store exactly as it was. -/
theorem signIn_error_facts (env : AuthEnv) (input : SignInInput)
    (db : List Account) (e : AuthError)
    (h : (signInWithPassword env input db).1 = .error e) :
    e ≠ .authenticationFailed ∧ (signInWithPassword env input db).2.1 = db := by
  by_cases hins : insufficient input = true
  · have hres : signInWithPassword env input db =
        (.error .insufficientFactors, db, []) := by
      simp [signInWithPassword, hins]
    rw [hres] at h
    simp only [Except.error.injEq] at h
    subst h
    exact ⟨by simp, by rw [hres]⟩
  · have hins2 : insufficient input = false := by simpa using hins
    cases hfu : findByUsername db input.username with
    | none =>
      have hres : signInWithPassword env input db =
          (.error .accountNotFound, db, [.lookup input.username]) := by
        simp [signInWithPassword, hins2, hfu]
      rw [hres] at h
      simp only [Except.error.injEq] at h
      subst h
      exact ⟨by simp, by rw [hres]⟩
    | some user =>
      have hred : (signInWithPassword env input db).1 =
          (signInAfterLookup env input user db).1 := by
        simp [signInWithPassword, hins2, hfu]
      have hred2 : (signInWithPassword env input db).2.1 =
          (signInAfterLookup env input user db).2.1 := by
        simp [signInWithPassword, hins2, hfu]
      rw [hred] at h
      obtain ⟨h1, h2⟩ := signInAfterLookup_error_facts env input user db hins2 e h
      exact ⟨h1, by rw [hred2, h2]⟩

/-- Lookup by username commutes with a by-id update that preserves the
username column: the found row is the updated row. -/
theorem findByUsername_updateById (db : List Account) (n : String)
    (i : Nat) (g : Account → Account)
    (hg : ∀ a, (g a).username = a.username) (u : Account)
    (h : findByUsername db n = some u) :
    findByUsername (updateById db i g) n =
      some (if u.id == i then g u else u) := by
  induction db with
  | nil => simp [findByUsername] at h
  | cons a t ih =>
    simp only [findByUsername, updateById, List.map_cons] at h ⊢
    by_cases hpa : (a.username == n) = true
    · rw [List.find?_cons_of_pos (p := fun x : Account => x.username == n) _ hpa] at h
      have hu : u = a := by simpa using h.symm
      subst hu
      have hhead : ((if u.id == i then g u else u).username == n) = true := by
        by_cases hid : (u.id == i) = true
        · simp [hid, hg u, hpa]
        · simp [hid, hpa]
      rw [List.find?_cons_of_pos (p := fun x : Account => x.username == n) _ hhead]
    · rw [List.find?_cons_of_neg (p := fun x : Account => x.username == n) _
        (by simpa using hpa)] at h
      have hhead : ¬((if a.id == i then g a else a).username == n) = true := by
        by_cases hid : (a.id == i) = true
        · simpa [hid, hg a] using hpa
        · simpa [hid] using hpa
      rw [List.find?_cons_of_neg (p := fun x : Account => x.username == n) _ hhead]
      exact ih h

/-- A post-lookup run whose snapshot carries a verifying password and a
verifying recovery code (no OTP supplied) succeeds, clears the stored
recovery code and stamps `lastLoginAt`. -/
theorem signInAfterLookup_pw_recovery_ok (env : AuthEnv)
    (input : SignInInput) (user : Account) (db : List Account)
    (pw rc ph stored : String)
    (hp : input.password = some pw) (hpne : (pw == "") = false)
    (ht : input.twoFactorCode = none)
    (hr : input.recoveryCode = some rc) (hrne : (rc == "") = false)
    (hph : user.passwordHash = some ph)
    (hvp : env.argonVerify ph pw = true)
    (hst : user.recoveryCode = some stored)
    (hvr : env.argonVerify stored rc = true) :
    signInAfterLookup env input user db =
      (.ok (), setLastLogin (clearRecoveryCode db user.id) user.id env.now,
        [.clearRecoveryCode user.id,
          .issueSession user.id user.username user.publicId,
          .updateLastLoginAt user.id]) := by
  simp [signInAfterLookup, checkPassword, checkOtp, checkRecovery,
    truthy, hp, hpne, ht, hr, hrne, hph, hvp, hst, hvr]

/-! Claim theorems. -/

/-- C9: for every sign-in request that passes the two-factor
precondition, if every supplied factor's verification succeeds then at
least two of the three outcome booleans are true, so the final generic
`AuthenticationFailed` branch at the end of sign-in is unreachable —
every failing sign-in instead throws a factor-specific (disabled or
invalid) error before the decision point. -/
theorem claim9_authFailed_unreachable (env : AuthEnv) (input : SignInInput)
    (db : List Account) :
    (signInWithPassword env input db).1 ≠ .error .authenticationFailed := by
  intro h
  exact (signIn_error_facts env input db _ h).1 rfl

/-- C10: sign-in mutates the account store only on successful runs —
whenever sign-in throws any error, the stored accounts (including
`recoveryCode` and `lastLoginAt`) are exactly as they were before the
call. -/
theorem claim10_error_leaves_store_unchanged (env : AuthEnv)
    (input : SignInInput) (db : List Account) (e : AuthError)
    (h : (signInWithPassword env input db).1 = .error e) :
    (signInWithPassword env input db).2.1 = db :=
  (signIn_error_facts env input db e h).2

/-- C10 witness: a concrete failing sign-in (unknown username) leaves
the store unchanged. -/
theorem claim10_witness :
    (signInWithPassword testEnv inpNobody [alice]).2.1 = [alice] :=
  claim10_error_leaves_store_unchanged testEnv inpNobody [alice]
    .accountNotFound (by decide)

/-- C4: for every account whose `passwordHash` is absent, a sign-in
request supplying the password plus one other factor fails with
`PasswordSignInDisabled` (so never with `InvalidCredentials`), leaving
the store unchanged — the disabled-factor case is never silently
skipped. -/
theorem claim4_password_disabled (env : AuthEnv) (input : SignInInput)
    (db : List Account) (u : Account)
    (hpw : truthy input.password = true)
    (hother : truthy input.twoFactorCode = true ∨
      truthy input.recoveryCode = true)
    (hfu : findByUsername db input.username = some u)
    (hph : u.passwordHash = none) :
    signInWithPassword env input db =
      (.error .passwordSignInDisabled, db, [.lookup input.username]) := by
  have hins : insufficient input = false := by
    rcases hother with h1 | h1 <;> simp [insufficient, hpw, h1]
  simp [signInWithPassword, signInAfterLookup, checkPassword, hins, hfu,
    hpw, hph]

/-- C4 witness: bob has no stored password hash; password + OTP sign-in
fails with `PasswordSignInDisabled`. -/
theorem claim4_witness :
    signInWithPassword testEnv inpBob [bob] =
      (.error .passwordSignInDisabled, [bob], [.lookup "bob"]) :=
  claim4_password_disabled testEnv inpBob [bob] bob (by decide)
    (Or.inl (by decide)) (by decide) rfl

/-- C5: a sign-in request supplying fewer than two non-absent factors
is rejected with `InsufficientFactors` before any account lookup (the
store is untouched and no lookup event is emitted). -/
theorem claim5_insufficient_before_lookup (env : AuthEnv)
    (input : SignInInput) (db : List Account)
    (hcount : presentFactorCount input < 2) :
    signInWithPassword env input db =
      (.error .insufficientFactors, db, []) := by
  have hins : insufficient input = true := by
    rcases hp : input.password with _ | p <;>
    rcases ht : input.twoFactorCode with _ | t <;>
    rcases hr : input.recoveryCode with _ | r <;>
      first
        | (exfalso; simp [presentFactorCount, hp, ht, hr] at hcount; done)
        | simp [insufficient, truthy, hp, ht, hr]
  simp [signInWithPassword, hins]

/-- C5 witness: password only. -/
theorem claim5_witness :
    signInWithPassword testEnv inpOnlyPassword [alice] =
      (.error .insufficientFactors, [alice], []) :=
  claim5_insufficient_before_lookup testEnv inpOnlyPassword [alice]
    (by decide)

/-- C1 counterexample: alice supplies all three factors; password and
OTP verify (two of the three outcomes are valid) while the recovery
code fails verification — yet sign-in does not succeed: it throws
`InvalidRecoveryCode`.  The claim that the decision accepts whenever
any two outcomes are true is therefore false on the code. -/
theorem claim1_counterexample :
    testEnv.argonVerify "#pw123456" "pw123456" = true ∧
    testEnv.totpVerify "OTPSECRET" "OTPSECRET" = true ∧
    testEnv.argonVerify "#rec-code" "WRONG" = false ∧
    (signInWithPassword testEnv inpAllThreeBadRecovery [alice]).1 =
      .error .invalidRecoveryCode := by
  refine ⟨by decide, by decide, by decide, by decide⟩

/-- C1 amended: each supplied factor is verified in source order and a
supplied factor that fails verification immediately throws its
factor-specific error instead of merely recording a false outcome: in
particular, for every account and request supplying all three factors
where password and OTP verify but the recovery code fails
verification, sign-in fails with `InvalidRecoveryCode` (leaving the
store unchanged) rather than succeeding on the two valid outcomes. -/
theorem claim1_amended_short_circuit (env : AuthEnv) (input : SignInInput)
    (db : List Account) (u : Account) (pw tc rc ph ts stored : String)
    (hp : input.password = some pw) (hpne : (pw == "") = false)
    (ht : input.twoFactorCode = some tc) (htne : (tc == "") = false)
    (hr : input.recoveryCode = some rc) (hrne : (rc == "") = false)
    (hfu : findByUsername db input.username = some u)
    (hph : u.passwordHash = some ph) (hvp : env.argonVerify ph pw = true)
    (hts : u.twoFactorSecret = some ts) (hvt : env.totpVerify tc ts = true)
    (hst : u.recoveryCode = some stored)
    (hvr : env.argonVerify stored rc = false) :
    signInWithPassword env input db =
      (.error .invalidRecoveryCode, db, [.lookup input.username]) := by
  have hins : insufficient input = false := by
    simp [insufficient, truthy, hp, hpne, ht, htne]
  simp [signInWithPassword, signInAfterLookup, checkPassword, checkOtp,
    checkRecovery, truthy, hins, hfu, hp, hpne, ht, htne, hr, hrne,
    hph, hvp, hts, hvt, hst, hvr]

/-- C1 witness: the amended claim at the concrete counterexample
input. -/
theorem claim1_witness :
    signInWithPassword testEnv inpAllThreeBadRecovery [alice] =
      (.error .invalidRecoveryCode, [alice], [.lookup "alice"]) :=
  claim1_amended_short_circuit testEnv inpAllThreeBadRecovery [alice]
    alice "pw123456" "OTPSECRET" "WRONG" "#pw123456" "OTPSECRET"
    "#rec-code" rfl (by decide) rfl (by decide) rfl (by decide)
    (by decide) rfl (by decide) rfl (by decide) rfl (by decide)

/-- C7: rotation mandates OTP confirmation — once the old password
verifies, an account without `twoFactorSecret` fails with
`TwoFactorNotEnabled`, and an account with a secret but a
non-verifying OTP code fails with `InvalidOtp`; in both cases the
stored password hash is untouched and no session is issued. -/
theorem claim7_rotation_requires_otp (env : AuthEnv) (accountId : Nat)
    (input : RotateInput) (db : List Account) (sessions : List Session)
    (u : Account) (ph : String)
    (hfi : findById db accountId = some u)
    (hph : u.passwordHash = some ph)
    (hold : env.argonVerify ph input.oldPassword = true) :
    (u.twoFactorSecret = none →
      updateUserPassword env accountId input db sessions =
        (.error .twoFactorNotEnabled, db, sessions, [])) ∧
    (∀ s, u.twoFactorSecret = some s →
      env.totpVerify input.otp s = false →
      updateUserPassword env accountId input db sessions =
        (.error .invalidOtp, db, sessions, [])) := by
  constructor
  · intro hts
    simp [updateUserPassword, hfi, hph, hold, hts]
  · intro s hts hotp
    simp [updateUserPassword, hfi, hph, hold, hts, hotp]

/-- C7 witness: dave (no 2FA secret) fails rotation with
`TwoFactorNotEnabled`; alice with a wrong OTP fails with `InvalidOtp`;
stores and sessions unchanged in both runs. -/
theorem claim7_witness :
    updateUserPassword testEnv 4 rotDave [dave] [(5, 4)] =
      (.error .twoFactorNotEnabled, [dave], [(5, 4)], []) ∧
    updateUserPassword testEnv 1 rotAliceBadOtp [alice] [(5, 1)] =
      (.error .invalidOtp, [alice], [(5, 1)], []) :=
  ⟨(claim7_rotation_requires_otp testEnv 4 rotDave [dave] [(5, 4)] dave
      "#dpw12345" (by decide) rfl (by decide)).1 rfl,
    (claim7_rotation_requires_otp testEnv 1 rotAliceBadOtp [alice]
      [(5, 1)] alice "#pw123456" (by decide) rfl (by decide)).2
      "OTPSECRET" rfl (by decide)⟩

/-- C8: when `invalidateAllSessions` is set and rotation succeeds, the
bulk invalidation of the account's existing sessions happens before
the new session is issued (the event trace lists `invalidateSessions`
first, and the session store is first filtered and only then receives
the fresh session), so the newly issued session survives. -/
theorem claim8_invalidate_before_issue (env : AuthEnv) (accountId : Nat)
    (input : RotateInput) (db : List Account) (sessions : List Session)
    (u : Account) (ph s nh : String)
    (hfi : findById db accountId = some u)
    (hph : u.passwordHash = some ph)
    (hold : env.argonVerify ph input.oldPassword = true)
    (hts : u.twoFactorSecret = some s)
    (hotp : env.totpVerify input.otp s = true)
    (hhash : env.argonHash input.newPassword = .ok nh)
    (hinv : input.invalidateAllSessions = true) :
    updateUserPassword env accountId input db sessions =
      (.ok (), setPasswordHash db accountId nh,
        (env.newSessionToken, accountId) ::
          sessions.filter (fun x => x.2 != accountId),
        [.invalidateSessions accountId,
          .issueSession accountId u.username u.publicId]) ∧
    (env.newSessionToken, accountId) ∈
      (updateUserPassword env accountId input db sessions).2.2.1 := by
  have hmain : updateUserPassword env accountId input db sessions =
      (.ok (), setPasswordHash db accountId nh,
        (env.newSessionToken, accountId) ::
          sessions.filter (fun x => x.2 != accountId),
        [.invalidateSessions accountId,
          .issueSession accountId u.username u.publicId]) := by
    simp [updateUserPassword, hfi, hph, hold, hts, hotp, hhash, hinv]
  exact ⟨hmain, by rw [hmain]; exact List.mem_cons_self _ _⟩

/-- C8 witness: alice rotates with everything correct and
`invalidateAllSessions`; her old session 5 is removed, another
account's session 6 survives, and the new session token 77 is present
after the invalidation. -/
theorem claim8_witness :
    updateUserPassword testEnv 1 rotAliceGood [alice] [(5, 1), (6, 2)] =
      (.ok (), setPasswordHash [alice] 1 "#NewPass123",
        (77, 1) :: [(6, 2)],
        [.invalidateSessions 1, .issueSession 1 "alice" "pub_alice"]) ∧
    (77, 1) ∈
      (updateUserPassword testEnv 1 rotAliceGood [alice]
        [(5, 1), (6, 2)]).2.2.1 := by
  have h := claim8_invalidate_before_issue testEnv 1 rotAliceGood [alice]
    [(5, 1), (6, 2)] alice "#pw123456" "OTPSECRET" "#NewPass123"
    (by decide) rfl (by decide) rfl (by decide) (by decide) rfl
  exact ⟨by rw [h.1]; decide, h.2⟩

/-- C6: sign-up is atomic — whenever any step of the transaction body
(availability check, password hashing, or row insertion) fails, the
surfaced error is exactly the body's original error (logged then
re-raised, never swallowed), the account store is unchanged (no
partial row persists), and no session is issued (the only emitted
event is the error log). -/
theorem claim6_signup_atomic (env : AuthEnv) (input : SignUpInput)
    (db : List Account) (e : AuthError)
    (h : (signUpWithPassword env input db).1 = .error e) :
    signUpTxBody env input db = .error e ∧
      (signUpWithPassword env input db).2.1 = db ∧
      (signUpWithPassword env input db).2.2 = [Event.logError] := by
  cases hb : signUpTxBody env input db with
  | error e2 =>
    have hres : signUpWithPassword env input db =
        (.error e2, db, [Event.logError]) := by
      simp [signUpWithPassword, hb]
    rw [hres] at h
    simp only [Except.error.injEq] at h
    subst h
    exact ⟨rfl, by rw [hres], by rw [hres]⟩
  | ok v =>
    exfalso
    obtain ⟨db2, accountId, publicId⟩ := v
    simp [signUpWithPassword, hb] at h

/-- C6 witness: the availability check passes on an empty store but
the insert fails; the error is re-raised as `internal`, the store
stays empty and only the log event is emitted. -/
theorem claim6_witness :
    signUpTxBody testEnvInsertFail
        { username := "carol", password := "Str0ngPass1" } [] =
      .error .internal ∧
    (signUpWithPassword testEnvInsertFail
        { username := "carol", password := "Str0ngPass1" } []).2.1 = [] ∧
    (signUpWithPassword testEnvInsertFail
        { username := "carol", password := "Str0ngPass1" } []).2.2 =
      [Event.logError] :=
  claim6_signup_atomic testEnvInsertFail
    { username := "carol", password := "Str0ngPass1" } [] .internal
    (by decide)

/-- C2 counterexample: two sign-in attempts present the same valid
recovery code plus a valid password.  Modelling read-committed
concurrency at the granularity of the repository operations, both
attempts perform their account lookup (obtaining the same snapshot of
alice, recovery code still stored) before either performs its update;
then both post-lookup runs succeed — not "exactly one succeeds and the
other fails with `InvalidRecoveryCode`", because the clear-on-success
update of lines 180-185 is not conditioned on the stored code still
matching. -/
theorem claim2_counterexample :
    findByUsername [alice] "alice" = some alice ∧
    (signInAfterLookup testEnv inpPR alice [alice]).1 = .ok () ∧
    (signInAfterLookup testEnv inpPR alice
      (signInAfterLookup testEnv inpPR alice [alice]).2.1).1 = .ok () := by
  refine ⟨by decide, by decide, by decide⟩

/-- C2 amended: the clear-on-success update is an unconditional
by-id update, not a compare-and-clear; consequently, for any two
concurrent sign-in attempts presenting the same valid recovery code
plus a valid password, interleaved so that both account lookups read
the snapshot `u` before either update executes, both attempts
succeed. -/
theorem claim2_amended_unconditional_clear (env : AuthEnv)
    (inpA inpB : SignInInput) (u : Account) (db : List Account)
    (pwA pwB rcA rcB ph stored : String)
    (hpA : inpA.password = some pwA) (hpneA : (pwA == "") = false)
    (htA : inpA.twoFactorCode = none)
    (hrA : inpA.recoveryCode = some rcA) (hrneA : (rcA == "") = false)
    (hpB : inpB.password = some pwB) (hpneB : (pwB == "") = false)
    (htB : inpB.twoFactorCode = none)
    (hrB : inpB.recoveryCode = some rcB) (hrneB : (rcB == "") = false)
    (hph : u.passwordHash = some ph)
    (hvpA : env.argonVerify ph pwA = true)
    (hvpB : env.argonVerify ph pwB = true)
    (hst : u.recoveryCode = some stored)
    (hvrA : env.argonVerify stored rcA = true)
    (hvrB : env.argonVerify stored rcB = true) :
    (signInAfterLookup env inpA u db).1 = .ok () ∧
    (signInAfterLookup env inpB u
      (signInAfterLookup env inpA u db).2.1).1 = .ok () := by
  constructor
  · rw [signInAfterLookup_pw_recovery_ok env inpA u db pwA rcA ph stored
      hpA hpneA htA hrA hrneA hph hvpA hst hvrA]
  · rw [signInAfterLookup_pw_recovery_ok env inpB u _ pwB rcB ph stored
      hpB hpneB htB hrB hrneB hph hvpB hst hvrB]

/-- C2 witness: the amended claim at the concrete race of the
counterexample. -/
theorem claim2_witness :
    (signInAfterLookup testEnv inpPR alice [alice]).1 = .ok () ∧
    (signInAfterLookup testEnv inpPR alice
      (signInAfterLookup testEnv inpPR alice [alice]).2.1).1 = .ok () :=
  claim2_amended_unconditional_clear testEnv inpPR inpPR alice [alice]
    "pw123456" "pw123456" "rec-code" "rec-code" "#pw123456" "#rec-code"
    rfl (by decide) rfl rfl (by decide) rfl (by decide) rfl rfl
    (by decide) rfl (by decide) (by decide) rfl (by decide) (by decide)

/-- C3 counterexample: alice signs in with correct password and correct
recovery code — succeeds; a second sequential attempt on the resulting
store, reusing the same recovery code and the correct password, fails —
but with `RecoverySignInDisabled` (the stored code is now null, hitting
the METHOD_NOT_SUPPORTED branch of lines 167-172), not with
`InvalidRecoveryCode` as claimed. -/
theorem claim3_counterexample :
    (signInWithPassword testEnv inpPR [alice]).1 = .ok () ∧
    (signInWithPassword testEnv inpPR
        (signInWithPassword testEnv inpPR [alice]).2.1).1 =
      .error .recoverySignInDisabled ∧
    (signInWithPassword testEnv inpPR
        (signInWithPassword testEnv inpPR [alice]).2.1).1 ≠
      .error .invalidRecoveryCode := by
  refine ⟨by decide, by decide, by decide⟩

/-- C3 amended: a successful sign-in that verifies a supplied recovery
code clears the stored `recoveryCode` before returning (the account
found afterwards has `recoveryCode` absent and `lastLoginAt` stamped);
a second sequential sign-in attempt for the same account that reuses
the same recovery code together with a correct password then fails
with `RecoverySignInDisabled` — the code-absent branch — rather than
`InvalidRecoveryCode`. -/
theorem claim3_single_use_recovery (env : AuthEnv) (input : SignInInput)
    (db : List Account) (u : Account) (ph stored pw rc : String)
    (hp : input.password = some pw) (hpne : (pw == "") = false)
    (ht : input.twoFactorCode = none)
    (hr : input.recoveryCode = some rc) (hrne : (rc == "") = false)
    (hfu : findByUsername db input.username = some u)
    (hph : u.passwordHash = some ph)
    (hvp : env.argonVerify ph pw = true) :
    (u.recoveryCode = some stored → env.argonVerify stored rc = true →
      (signInWithPassword env input db).1 = .ok () ∧
      findByUsername (signInWithPassword env input db).2.1 input.username =
        some { u with recoveryCode := none, lastLoginAt := some env.now }) ∧
    (u.recoveryCode = none →
      signInWithPassword env input db =
        (.error .recoverySignInDisabled, db, [.lookup input.username])) := by
  have hins : insufficient input = false := by
    simp [insufficient, truthy, hp, hpne, hr, hrne]
  constructor
  · intro hst hvr
    have hrun := signInAfterLookup_pw_recovery_ok env input u db pw rc ph
      stored hp hpne ht hr hrne hph hvp hst hvr
    have h1 : (signInWithPassword env input db).1 = .ok () := by
      simp [signInWithPassword, hins, hfu, hrun]
    have h2 : (signInWithPassword env input db).2.1 =
        setLastLogin (clearRecoveryCode db u.id) u.id env.now := by
      simp [signInWithPassword, hins, hfu, hrun]
    refine ⟨h1, ?rest⟩
    rw [h2]
    have hc1 := findByUsername_updateById db input.username u.id
      (fun a => { a with recoveryCode := none }) (fun a => rfl) u hfu
    simp only [beq_self_eq_true, if_true] at hc1
    have hc2 := findByUsername_updateById (clearRecoveryCode db u.id)
      input.username u.id (fun a => { a with lastLoginAt := some env.now })
      (fun a => rfl) { u with recoveryCode := none } (by
        simpa [clearRecoveryCode] using hc1)
    simpa [setLastLogin, clearRecoveryCode] using hc2
  · intro hnone
    have hrun : signInAfterLookup env input u db =
        (.error .recoverySignInDisabled, db, []) := by
      simp [signInAfterLookup, checkPassword, checkOtp, checkRecovery,
        truthy, hp, hpne, ht, hr, hrne, hph, hvp, hnone]
    simp [signInWithPassword, hins, hfu, hrun]

/-- C3 witness: the amended claim applied to alice's store before and
after the first successful use of the recovery code. -/
theorem claim3_witness :
    (signInWithPassword testEnv inpPR [alice]).1 = .ok () ∧
    signInWithPassword testEnv inpPR [aliceCleared] =
      (.error .recoverySignInDisabled, [aliceCleared], [.lookup "alice"]) :=
  ⟨((claim3_single_use_recovery testEnv inpPR [alice] alice "#pw123456"
      "#rec-code" "pw123456" "rec-code" rfl (by decide) rfl rfl
      (by decide) (by decide) rfl (by decide)).1 rfl (by decide)).1,
    (claim3_single_use_recovery testEnv inpPR [aliceCleared] aliceCleared
      "#pw123456" "#rec-code" "pw123456" "rec-code" rfl (by decide) rfl
      rfl (by decide) (by decide) rfl (by decide)).2 rfl⟩
